import Mathlib

/-!
Verification development for the serving-state and transactional-resource core of the
vitess tablet server: the transaction pool (`go/vt/vttablet/tabletserver/tx_pool.go`),
the health streamer, the tablet picker (`go/vt/discovery/tablet_picker.go`), and the
state manager.  Go code is embedded shallowly: mutation becomes explicit state passing
on a `World`/record value, fallible calls return `Option`/`Except`, and externally
observable side effects (statements executed on the database, pool registrations,
metric/log records) are collected in an explicit event list.
-/

namespace Vitess

/-- Error codes of the vtrpc taxonomy used by the modelled code paths. -/
inductive Code
  | RESOURCE_EXHAUSTED
  | ABORTED
  | INTERNAL
  | FAILED_PRECONDITION
  | INVALID_ARGUMENT
  | CANCELED
  | UNKNOWN
deriving DecidableEq, Repr

/-- A vterrors-style error: a code plus a message. -/
structure VtError where
  code : Code
  msg : String
deriving DecidableEq, Repr

/-- The transaction-isolation enum of querypb.ExecuteOptions.  Proto enum fields are
open (any int32 can arrive on the wire), so a catch-all constructor carries values
outside the seven named ones. -/
inductive TransactionIsolation
  | DEFAULT
  | REPEATABLE_READ
  | READ_COMMITTED
  | READ_UNCOMMITTED
  | SERIALIZABLE
  | CONSISTENT_SNAPSHOT_READ_ONLY
  | AUTOCOMMIT
  | UNKNOWN_VALUE (value : Int)
deriving DecidableEq, Repr

/-- The per-isolation statement pair (type `queries` in tx_pool.go). -/
structure Queries where
  setIsolationLevel : String
  openTransaction : String
deriving DecidableEq, Repr

/-- The `txIsolations` lookup table from tx_pool.go.  AUTOCOMMIT and out-of-range
values are absent from the Go map, hence `none` here. -/
def txIsolations : TransactionIsolation → Option Queries
  | .DEFAULT => some ⟨"", "begin"⟩
  | .REPEATABLE_READ => some ⟨"REPEATABLE READ", "begin"⟩
  | .READ_COMMITTED => some ⟨"READ COMMITTED", "begin"⟩
  | .READ_UNCOMMITTED => some ⟨"READ UNCOMMITTED", "begin"⟩
  | .SERIALIZABLE => some ⟨"SERIALIZABLE", "begin"⟩
  | .CONSISTENT_SNAPSHOT_READ_ONLY =>
      some ⟨"REPEATABLE READ", "start transaction with consistent snapshot, read only"⟩
  | .AUTOCOMMIT => none
  | .UNKNOWN_VALUE _ => none

/-- Conclusion constants from tx_pool.go. -/
def TxClose : String := "close"

/-- Conclusion constant for commit. -/
def TxCommit : String := "commit"

/-- Conclusion constant for rollback. -/
def TxRollback : String := "rollback"

/-- Conclusion constant for the transaction killer. -/
def TxKill : String := "kill"

/-- TxConnection from tx_pool.go.  `hasDbConn` models whether the `dbConn` pointer is
non-nil; `shutDownTasks` keeps identifiers for the registered shutdown closures (task
`0` is the limiter-slot release appended by `Begin`). -/
structure TxConnection where
  TransactionID : Int
  hasDbConn : Bool
  StartTime : Nat
  EndTime : Nat
  Queries : List String
  Conclusion : String
  EffectiveCaller : String
  ImmediateCaller : String
  Autocommit : Bool
  reserved : Bool
  TxProps : Option Bool
  shutDownTasks : List Nat
deriving DecidableEq, Repr

/-- Externally observable side effects of the transaction-pool code. -/
inductive Event
  | execStmt (connID : Int) (query : String)
  | unregister (connID : Int) (reason : String)
  | recycleDb (connID : Int)
  | closeDb (connID : Int)
  | runTask (connID : Int) (task : Nat)
  | logRecord (connID : Int) (conclusion : String)
  | killCounterAdd
deriving DecidableEq, Repr

/-- Modelled from the spec: one entry of the ActivePool registry (the ActivePool
source file is outside the provided slice).  Per the spec the registry maps unique
ConnIDs to TxConnections and the outdated scan needs, per connection, whether it is
checked out and for how long it has been idle. -/
structure PoolEntry where
  conn : TxConnection
  inUse : Bool
  idleTime : Nat
deriving DecidableEq, Repr

/-- The mutable state threaded through the transaction-pool operations: the ActivePool
registry, the id generator, the connection-pool capacity and the event log. -/
structure World where
  registry : List (Int × PoolEntry)
  lastID : Int
  capacity : Nat
  events : List Event
deriving DecidableEq, Repr

/-- Append one observable event. -/
def emit (e : Event) (w : World) : World :=
  { w with events := w.events ++ [e] }

/-- Modelled from the spec: ActivePool removal ("supports lookup, removal, ...").
Removes the ConnID from the registry and records the removal. -/
def ActivePool.Unregister (id : Int) (reason : String) (w : World) : World :=
  { w with registry := w.registry.filter (fun p => p.1 != id),
           events := w.events ++ [Event.unregister id reason] }

/-- TxConnection.log from tx_pool.go: records the conclusion and end time on the
connection and emits the caller-keyed metrics/Log record. -/
def TxConnection.logConclusion (now : Nat) (conclusion : String) (txc : TxConnection)
    (w : World) : TxConnection × World :=
  let txc := { txc with Conclusion := conclusion, EndTime := now }
  (txc, emit (Event.logRecord txc.TransactionID conclusion) w)

/-- TxConnection.conclude from tx_pool.go: a no-op when the db connection is already
gone; otherwise unregisters from the pool, recycles and clears the db connection, runs
the shutdown tasks, and logs the conclusion. -/
def TxConnection.conclude (now : Nat) (conclusion reason : String) (txc : TxConnection)
    (w : World) : TxConnection × World :=
  if txc.hasDbConn = false then (txc, w)
  else
    let w := ActivePool.Unregister txc.TransactionID reason w
    let w := emit (Event.recycleDb txc.TransactionID) w
    let txc := { txc with hasDbConn := false }
    let w := txc.shutDownTasks.foldl (fun acc t => emit (Event.runTask txc.TransactionID t) acc) w
    TxConnection.logConclusion now conclusion txc w

/-- TxConnection.Release from tx_pool.go: conclude with conclusion = reason. -/
def TxConnection.Release (now : Nat) (reason : String) (txc : TxConnection)
    (w : World) : TxConnection × World :=
  TxConnection.conclude now reason reason txc w

/-- TxConnection.Close from tx_pool.go: closes the underlying db connection when
present (the pointer itself is not cleared). -/
def TxConnection.CloseConn (txc : TxConnection) (w : World) : World :=
  if txc.hasDbConn then emit (Event.closeDb txc.TransactionID) w else w

/-- TxConnection.Exec from tx_pool.go.  `db` is the backend oracle: whether executing
a given statement succeeds.  Fails with ABORTED when the connection is concluded. -/
def TxConnection.ExecOnDb (db : String → Bool) (q : String) (txc : TxConnection)
    (w : World) : World × Option VtError :=
  if txc.hasDbConn = false then
    (w, some ⟨Code.ABORTED, "transaction was aborted: " ++ txc.Conclusion⟩)
  else
    let w := emit (Event.execStmt txc.TransactionID q) w
    if db q then (w, none) else (w, some ⟨Code.UNKNOWN, "error executing: " ++ q⟩)

/-- TxConnection.execWithRetry from tx_pool.go: silently succeeds when the db
connection is gone, otherwise executes the statement. -/
def TxConnection.execWithRetry (db : String → Bool) (q : String) (txc : TxConnection)
    (w : World) : World × Option VtError :=
  if txc.hasDbConn = false then (w, none)
  else
    let w := emit (Event.execStmt txc.TransactionID q) w
    if db q then (w, none) else (w, some ⟨Code.UNKNOWN, "error executing: " ++ q⟩)

/-- Modelled from the spec: ActivePool lookup with checkout.  Per the spec, `Get`
"checks a connection out; fails with an 'aborted' condition if the id is unknown or
already concluded"; a connection already checked out is likewise unavailable (at most
one holder may operate on a TxConnection at a time). -/
def ActivePool.Get (id : Int) (reason : String) (w : World) :
    Except String (TxConnection × World) :=
  match w.registry.lookup id with
  | none => .error "not found"
  | some entry =>
    if entry.inUse then .error ("in use: " ++ reason)
    else
      let reg := w.registry.map
        (fun p => if p.1 = id then (p.1, { p.2 with inUse := true }) else p)
      .ok (entry.conn, { w with registry := reg })

/-- TxPool.Get from tx_pool.go: wraps the ActivePool failure in an ABORTED error. -/
def TxPool.Get (id : Int) (reason : String) (w : World) :
    Except VtError (TxConnection × World) :=
  match ActivePool.Get id reason w with
  | .error e => .error ⟨Code.ABORTED, "transaction " ++ toString id ++ ": " ++ e⟩
  | .ok cw => .ok cw

/-- Failures of ActivePool.NewConn: the two resource-pool errors (pools.ErrCtxTimeout
and pools.ErrTimeout) plus an error returned by the initialization closure. -/
inductive NewConnError
  | ErrCtxTimeout
  | ErrTimeout
  | appError (e : VtError)
deriving DecidableEq, Repr

/-- Inputs of TxPool.Begin that come from the request context and environment: the
admission-limiter decision for the (immediate caller, effective caller) pair, whether
the context deadline has already expired, the caller identities, the current time and
the backend oracle. -/
structure BeginEnv where
  limiterAllows : Bool
  ctxExpired : Bool
  immediateCaller : String
  effectiveCaller : String
  now : Nat
  db : String → Bool

/-- The initialization closure that TxPool.Begin passes to ActivePool.NewConn:
resolves the isolation level through `txIsolations`, executes the optional
set-isolation-level statement and the open-transaction statement, accumulates the
begin-statement text, and flags autocommit transactions; unknown isolation values
yield an internal error. -/
def beginClosure (db : String → Bool) (iso : TransactionIsolation) (txConn : TxConnection)
    (w : World) : (Except VtError (TxConnection × String)) × World :=
  match txIsolations iso with
  | some qs =>
    let prefixText := if qs.setIsolationLevel = "" then "" else qs.setIsolationLevel ++ "; "
    let step1 :=
      if qs.setIsolationLevel = "" then (w, none)
      else TxConnection.execWithRetry db
        ("set transaction isolation level " ++ qs.setIsolationLevel) txConn w
    match step1 with
    | (w, some e) => (.error e, w)
    | (w, none) =>
      match TxConnection.execWithRetry db qs.openTransaction txConn w with
      | (w, some e) => (.error e, w)
      | (w, none) =>
        (.ok ({ txConn with Autocommit := false, TxProps := some false },
              prefixText ++ qs.openTransaction), w)
  | none =>
    if iso = .AUTOCOMMIT then
      (.ok ({ txConn with Autocommit := true, TxProps := some false }, ""), w)
    else
      (.error ⟨Code.INTERNAL, "do not know how to open a transaction of this type"⟩, w)

/-- Modelled from the spec: ActivePool.NewConn (source outside the provided slice).
Per the spec, Begin "fails with a resource-exhausted condition if ... the pool is at
capacity or the context is already past its deadline", and ConnIDs are process-unique
and monotonic.  NewConn checks the deadline and capacity, allocates the next ConnID,
builds the TxConnection, runs the initialization closure and, on success, registers
the connection (not checked out, idle time zero); a closure failure leaves the
connection unregistered. -/
def ActivePool.NewConn (env : BeginEnv) (iso : TransactionIsolation) (w : World) :
    (Except NewConnError (TxConnection × String)) × World :=
  if env.ctxExpired then (.error .ErrCtxTimeout, w)
  else if w.capacity ≤ w.registry.length then (.error .ErrTimeout, w)
  else
    let id := w.lastID + 1
    let txConn : TxConnection :=
      { TransactionID := id, hasDbConn := true, StartTime := env.now, EndTime := 0,
        Queries := [], Conclusion := "", EffectiveCaller := env.effectiveCaller,
        ImmediateCaller := env.immediateCaller, Autocommit := false, reserved := false,
        TxProps := none, shutDownTasks := [] }
    let w := { w with lastID := id }
    match beginClosure env.db iso txConn w with
    | (.error e, w) => (.error (.appError e), w)
    | (.ok (txConn, q), w) =>
        ((.ok (txConn, q)),
         { w with registry := w.registry ++ [(id, ⟨txConn, false, 0⟩)] })

/-- Append a shutdown task to a registered connection (the mutation
`txConn.shutDownTasks = append(...)` performed by Begin on the registered object). -/
def addShutdownTask (id : Int) (task : Nat) (w : World) : World :=
  let reg := w.registry.map
    (fun p => if p.1 = id then
        (p.1, { p.2 with conn :=
          { p.2.conn with shutDownTasks := p.2.conn.shutDownTasks ++ [task] } })
      else p)
  { w with registry := reg }

/-- TxPool.Begin from tx_pool.go: consults the limiter first, then allocates through
ActivePool.NewConn; the two resource-pool errors are rewritten to RESOURCE_EXHAUSTED;
on success the limiter-release shutdown task (task 0) is appended and the ConnID and
begin-statement text are returned.  Mirrors the Go signature (ConnID, string, error),
with id 0 and empty text on error. -/
def TxPool.Begin (env : BeginEnv) (iso : TransactionIsolation) (w : World) :
    (Int × String × Option VtError) × World :=
  if env.limiterAllows = false then
    ((0, "", some ⟨Code.RESOURCE_EXHAUSTED,
        "per-user transaction pool connection limit exceeded"⟩), w)
  else
    match ActivePool.NewConn env iso w with
    | (.error .ErrCtxTimeout, w) =>
        ((0, "", some ⟨Code.RESOURCE_EXHAUSTED,
            "transaction pool aborting request due to already expired context"⟩), w)
    | (.error .ErrTimeout, w) =>
        ((0, "", some ⟨Code.RESOURCE_EXHAUSTED,
            "transaction pool connection limit exceeded"⟩), w)
    | (.error (.appError e), w) => ((0, "", some e), w)
    | (.ok (txConn, beginQueries), w) =>
        ((txConn.TransactionID, beginQueries, none),
         addShutdownTask txConn.TransactionID 0 w)

/-- TxPool.LocalCommit from tx_pool.go: autocommit transactions skip the commit
statement; otherwise "commit" is executed (closing the connection on failure); in all
cases the deferred Release(TxCommit) concludes the connection.  Returns the commit
statement text, the error, the final connection and the world. -/
def TxPool.LocalCommit (db : String → Bool) (now : Nat) (conn : TxConnection)
    (w : World) : (String × Option VtError) × TxConnection × World :=
  if conn.Autocommit then
    let (conn, w) := TxConnection.Release now TxCommit conn w
    (("", none), conn, w)
  else
    match TxConnection.ExecOnDb db "commit" conn w with
    | (w, some e) =>
        let w := TxConnection.CloseConn conn w
        let (conn, w) := TxConnection.Release now TxCommit conn w
        (("", some e), conn, w)
    | (w, none) =>
        let (conn, w) := TxConnection.Release now TxCommit conn w
        (("commit", none), conn, w)

/-- TxPool.Commit from tx_pool.go: Get then LocalCommit. -/
def TxPool.Commit (db : String → Bool) (now : Nat) (id : Int) (w : World) :
    (Except VtError String) × World :=
  match TxPool.Get id "for commit" w with
  | .error e => (.error e, w)
  | .ok (conn, w) =>
      match TxPool.LocalCommit db now conn w with
      | ((_, some e), _, w) => (.error e, w)
      | ((s, none), _, w) => (.ok s, w)

/-- TxPool.localRollback from tx_pool.go: autocommit transactions are released with
the commit conclusion and no statement; otherwise "rollback" is executed (closing the
connection on failure) and the connection released with the rollback conclusion. -/
def TxPool.localRollback (db : String → Bool) (now : Nat) (conn : TxConnection)
    (w : World) : Option VtError × TxConnection × World :=
  if conn.Autocommit then
    let (conn, w) := TxConnection.Release now TxCommit conn w
    (none, conn, w)
  else
    match TxConnection.ExecOnDb db "rollback" conn w with
    | (w, some e) =>
        let w := TxConnection.CloseConn conn w
        let (conn, w) := TxConnection.Release now TxRollback conn w
        (some e, conn, w)
    | (w, none) =>
        let (conn, w) := TxConnection.Release now TxRollback conn w
        (none, conn, w)

/-- TxPool.Rollback from tx_pool.go: Get then localRollback. -/
def TxPool.Rollback (db : String → Bool) (now : Nat) (id : Int) (w : World) :
    Option VtError × World :=
  match TxPool.Get id "for rollback" w with
  | .error e => (some e, w)
  | .ok (conn, w) =>
      match TxPool.localRollback db now conn w with
      | (e, _, w) => (e, w)

/-- TxPool.LocalConclude from tx_pool.go: a no-op when the db connection is gone,
otherwise a rollback. -/
def TxPool.LocalConclude (db : String → Bool) (now : Nat) (conn : TxConnection)
    (w : World) : TxConnection × World :=
  if conn.hasDbConn = false then (conn, w)
  else
    match TxPool.localRollback db now conn w with
    | (_, conn, w) => (conn, w)

/-- Whether a registry entry is picked up by the outdated scan: idle longer than the
timeout and not checked out. -/
def outdatedB (timeout : Nat) (p : Int × PoolEntry) : Bool :=
  decide (timeout < p.2.idleTime) && !p.2.inUse

/-- Modelled from the spec: the ActivePool outdated scan — "connections idle longer
than a threshold and not checked out". -/
def ActivePool.GetOutdated (timeout : Nat) (w : World) : List TxConnection :=
  (w.registry.filter (outdatedB timeout)).map (fun p => p.2.conn)

/-- TxPool.transactionKiller from tx_pool.go: for every outdated connection,
increments the kill counter, closes the db connection and concludes with TxKill. -/
def TxPool.transactionKiller (now timeout : Nat) (w : World) : World :=
  (ActivePool.GetOutdated timeout w).foldl
    (fun acc conn =>
      let acc := emit Event.killCounterAdd acc
      let acc := TxConnection.CloseConn conn acc
      (TxConnection.conclude now TxKill "exceeded timeout" conn acc).2)
    w

/-- Tablet types from topodata.proto used by the modelled components. -/
inductive TabletType
  | UNKNOWN
  | MASTER
  | REPLICA
  | RDONLY
  | SPARE
  | EXPERIMENTAL
  | BACKUP
  | RESTORE
  | DRAINED
deriving DecidableEq, Repr

/-- A request/serving target: keyspace, shard, tablet type. -/
structure Target where
  keyspace : String
  shard : String
  tabletType : TabletType
deriving DecidableEq, Repr

/-- The realtime-stats portion of the health snapshot (querypb.RealtimeStats fields
touched by healthStreamer.Broadcast).  The replication lag is reported in whole
seconds; durations are modelled in nanoseconds. -/
structure RealtimeStats where
  healthError : String
  secondsBehindMaster : Nat
  secondsBehindMasterFilteredReplication : Int
  binlogPlayersCount : Int
  qps : Int
deriving DecidableEq, Repr

/-- The health snapshot broadcast to subscribers (querypb.StreamHealthResponse fields
touched by the health streamer). -/
structure StreamHealthResponse where
  target : Target
  serving : Bool
  tabletExternallyReparentedTimestamp : Int
  realtimeStats : RealtimeStats
deriving DecidableEq, Repr

/-- The health streamer state.  Each subscriber owns a single-slot channel, modelled
as `Option StreamHealthResponse` (`none` = slot free).  `serving` mirrors the state
manager's serving flag; `state` is the mutable current snapshot. -/
structure HealthStreamer where
  unhealthyThreshold : Nat
  serving : Bool
  state : StreamHealthResponse
  clients : List (Option StreamHealthResponse)
deriving DecidableEq, Repr

/-- healthStreamer.Broadcast from the source: a no-op without subscribers; otherwise
recomputes lag/health from the replication-status probe (`replStatus`: error or lag in
nanoseconds), sets serving to the conjunction of the internal serving flag and
healthiness (lag at most the unhealthy threshold), refreshes the filtered-replication
and qps figures, and performs a non-blocking send of a copy of the snapshot to every
subscriber slot, dropping it when the slot is full. -/
def HealthStreamer.Broadcast (replStatus : Except String Nat) (blp : Int × Int)
    (qps : Int) (hs : HealthStreamer) : HealthStreamer :=
  if hs.clients.isEmpty then hs
  else
    let rs := hs.state.realtimeStats
    let (rs, healthy) :=
      match replStatus with
      | .error e => ({ rs with healthError := e, secondsBehindMaster := 0 }, false)
      | .ok lag =>
          ({ rs with healthError := "", secondsBehindMaster := lag / 1000000000 },
           decide (lag ≤ hs.unhealthyThreshold))
    let rs := { rs with secondsBehindMasterFilteredReplication := blp.1,
                        binlogPlayersCount := blp.2, qps := qps }
    let shr := { hs.state with serving := hs.serving && healthy, realtimeStats := rs }
    let clients := hs.clients.map
      (fun slot => match slot with
        | none => some shr
        | some m => some m)
    { hs with state := shr, clients := clients }

/-- A tablet alias: cell plus unique id. -/
structure TabletAlias where
  cell : String
  uid : Nat
deriving DecidableEq, Repr

/-- The tablet record fields the picker consults. -/
structure Tablet where
  tabletAlias : TabletAlias
  keyspace : String
  shard : String
  tabletType : TabletType
deriving DecidableEq, Repr

/-- A topo.TabletInfo wrapper around a tablet record. -/
structure TabletInfo where
  tablet : Tablet
deriving DecidableEq, Repr

/-- Shard metadata: the current primary alias. -/
structure ShardInfo where
  masterAlias : TabletAlias
deriving DecidableEq, Repr

/-- A cells alias: a named group of cells. -/
structure CellsAlias where
  cells : List String
deriving DecidableEq, Repr

/-- The topology-server operations the tablet picker performs, as oracles: shard
lookup, cell-alias lookup, shard-replication listing per cell, and the tablet map
fetch (per-alias misses are `none`; a wholesale fetch failure is the `Except` error). -/
structure TopoServer where
  getShard : String → String → Except String ShardInfo
  getCellsAlias : String → Except String CellsAlias
  getShardReplication : String → String → String → Except String (List TabletAlias)
  getTabletMap : List TabletAlias → Except String (TabletAlias → Option TabletInfo)

/-- TabletPicker from tablet_picker.go. -/
structure TabletPicker where
  cells : List String
  keyspace : String
  shard : String
  tabletTypes : List TabletType
deriving DecidableEq, Repr

/-- TabletPicker.getMatchingTablets from tablet_picker.go: when exactly the MASTER
type is requested, the candidate alias is the shard record's master alias, bypassing
the cell list; otherwise each configured cell is expanded through the cell-alias
lookup (an alias-lookup failure means the name is taken as a plain cell) and the
aliases come from each resolved cell's shard-replication nodes; the aliases are then
fetched and filtered by membership of the tablet's type in the requested types. -/
def TabletPicker.getMatchingTablets (ts : TopoServer) (tp : TabletPicker) :
    List TabletInfo :=
  let aliases : List TabletAlias :=
    if tp.tabletTypes = [TabletType.MASTER] then
      match ts.getShard tp.keyspace tp.shard with
      | .error _ => []
      | .ok si => [si.masterAlias]
    else
      let actualCells := tp.cells.flatMap
        (fun cell =>
          match ts.getCellsAlias cell with
          | .error _ => [cell]
          | .ok ca => ca.cells)
      actualCells.flatMap
        (fun cell =>
          match ts.getShardReplication cell tp.keyspace tp.shard with
          | .error _ => []
          | .ok nodes => nodes)
  if aliases.isEmpty then []
  else
    match ts.getTabletMap aliases with
    | .error _ => []
    | .ok m =>
      aliases.filterMap
        (fun a =>
          match m a with
          | none => none
          | some ti =>
            if tp.tabletTypes.contains ti.tablet.tabletType then some ti else none)

/-- The serving states of the state manager. -/
inductive ServingState
  | StateNotConnected
  | StateNotServing
  | StateServing
deriving DecidableEq, Repr

/-- Subcomponent lifecycle actions issued by a state-manager transition. -/
inductive SubAction
  | closeMessager
  | closeTe
  | qeStopServing
  | closeTracker
  | seMakeNonMaster
  | closeWatcher
  | openSe
  | openVstreamer
  | openQe
  | openTxThrottler
  | rtMakeMaster
  | rtMakeNonMaster
  | openTracker
  | teAcceptReadWrite
  | teAcceptReadOnly
  | openMessager
  | openWatcher
  | closeTxThrottler
  | closeQe
  | closeVstreamer
  | closeRt
  | closeSe
deriving DecidableEq, Repr

/-- Modelled from the spec: the ordered subcomponent calls of a transition into
SERVING as primary (spec section 4.1 table, corroborated by
TestStateManagerServeMaster). -/
def servePrimaryActions : List SubAction :=
  [.closeWatcher, .openSe, .openVstreamer, .openQe, .openTxThrottler,
   .rtMakeMaster, .openTracker, .teAcceptReadWrite, .openMessager]

/-- Modelled from the spec: the ordered subcomponent calls of a transition into
SERVING as non-primary (spec section 4.1 table, corroborated by
TestStateManagerServeNonMaster). -/
def serveNonPrimaryActions : List SubAction :=
  [.closeMessager, .closeTracker, .seMakeNonMaster, .openSe, .openVstreamer,
   .openQe, .openTxThrottler, .teAcceptReadOnly, .rtMakeNonMaster, .openWatcher]

/-- Modelled from the spec: the ordered subcomponent calls of a transition into
NOT_SERVING as primary (corroborated by TestStateManagerUnserveMaster). -/
def unservePrimaryActions : List SubAction :=
  [.closeMessager, .closeTe, .qeStopServing, .closeWatcher, .openSe,
   .openVstreamer, .openQe, .openTxThrottler, .rtMakeMaster, .openTracker]

/-- Modelled from the spec: the ordered subcomponent calls of a transition into
NOT_SERVING as non-primary (corroborated by TestStateManagerUnserveNonmaster). -/
def unserveNonPrimaryActions : List SubAction :=
  [.closeMessager, .closeTe, .qeStopServing, .closeTracker, .seMakeNonMaster,
   .openSe, .openVstreamer, .openQe, .openTxThrottler, .rtMakeNonMaster,
   .openWatcher]

/-- Modelled from the spec: the ordered subcomponent calls of a transition into
NOT_CONNECTED (spec section 4.1 table, corroborated by TestStateManagerClose). -/
def closeAllActions : List SubAction :=
  [.closeMessager, .closeTe, .qeStopServing, .closeTxThrottler, .closeQe,
   .closeWatcher, .closeTracker, .closeVstreamer, .closeRt, .closeSe]

/-- Modelled from the spec: which ordered subcomponent actions a transition to the
given tablet type and desired state performs.  RESTORE and BACKUP tablet types never
reach SERVING: a transition into either lands in NOT_CONNECTED. -/
def transitionActions (tabletType : TabletType) (wantState : ServingState) :
    List SubAction :=
  if tabletType = .RESTORE ∨ tabletType = .BACKUP then closeAllActions
  else
    match wantState with
    | .StateServing =>
        if tabletType = .MASTER then servePrimaryActions else serveNonPrimaryActions
    | .StateNotServing =>
        if tabletType = .MASTER then unservePrimaryActions
        else unserveNonPrimaryActions
    | .StateNotConnected => closeAllActions

/-- Modelled from the spec: the achieved serving state after a successful transition.
RESTORE and BACKUP land in NOT_CONNECTED regardless of the requested state. -/
def achievedState (tabletType : TabletType) (wantState : ServingState) : ServingState :=
  if tabletType = .RESTORE ∨ tabletType = .BACKUP then .StateNotConnected
  else wantState

/-- Modelled from the spec: the state manager's small mutable state (the stateManager
source file is outside the provided slice; only its tests are).  `lastError` is the
triggering error of the last applied transition; `alsoAllow` is the explicit tablet
type allow-list consulted by target validation. -/
structure StateManager where
  target : Target
  state : ServingState
  wantState : ServingState
  lastError : Option String
  replHealthy : Bool
  lameduck : Bool
  alsoAllow : List TabletType
  terTimestamp : Nat
deriving DecidableEq, Repr

/-- Modelled from the spec: stateManager.SetServingType.  Per spec section 4.1, a
transition is a no-op (returns changed = false) only when tabletType, wantState and
triggeringError are identical to the currently-applied configuration; otherwise the
ordered subcomponent actions of the transition run and the new configuration is
applied.  Lameduck is exited on return in both cases.  Returns (changed, performed
actions) and the new state. -/
def StateManager.SetServingType (tabletType : TabletType) (terTimestamp : Nat)
    (wantState : ServingState) (reason : Option String) (sm : StateManager) :
    (Bool × List SubAction) × StateManager :=
  if sm.target.tabletType = tabletType ∧ sm.wantState = wantState ∧
      sm.lastError = reason then
    ((false, []), { sm with lameduck := false })
  else
    ((true, transitionActions tabletType wantState),
     { sm with target := { sm.target with tabletType := tabletType },
               wantState := wantState,
               state := achievedState tabletType wantState,
               lastError := reason,
               terTimestamp := terTimestamp,
               lameduck := false })

/-- Modelled from the spec: stateManager target validation (used by StartRequest and
VerifyTarget).  A nil target is allowed only from a local (internal, non-network)
context; otherwise keyspace, shard and tablet type must match the current target,
except that a mismatched tablet type in the `alsoAllow` list is accepted.  Mirrors the
error strings asserted by TestStateManagerValidations. -/
def StateManager.verifyTargetLocked (isLocalContext : Bool) (target : Option Target)
    (sm : StateManager) : Option VtError :=
  match target with
  | some t =>
    if t.keyspace ≠ sm.target.keyspace then
      some ⟨Code.INVALID_ARGUMENT, "invalid keyspace " ++ t.keyspace⟩
    else if t.shard ≠ sm.target.shard then
      some ⟨Code.INVALID_ARGUMENT, "invalid shard " ++ t.shard⟩
    else if t.tabletType ≠ sm.target.tabletType then
      (if sm.alsoAllow.contains t.tabletType then none
       else some ⟨Code.INVALID_ARGUMENT, "invalid tablet type"⟩)
    else none
  | none =>
    if isLocalContext then none
    else some ⟨Code.INVALID_ARGUMENT, "No target"⟩

/-- Modelled from the spec: stateManager.StartRequest.  Fails with an "operation not
allowed" condition when the achieved state is not SERVING or replication is unhealthy;
then, when the desired state is not SERVING, unless `allowExtraTypes` is set (the
escape for privileged callers, exercised by TestStateManagerValidations); finally the
target is validated.  `none` means the request was admitted. -/
def StateManager.StartRequest (isLocalContext : Bool) (target : Option Target)
    (allowExtraTypes : Bool) (sm : StateManager) : Option VtError :=
  if sm.state ≠ .StateServing ∨ sm.replHealthy = false then
    some ⟨Code.FAILED_PRECONDITION, "operation not allowed in state NOT_SERVING"⟩
  else if sm.wantState ≠ .StateServing ∧ allowExtraTypes = false then
    some ⟨Code.FAILED_PRECONDITION, "operation not allowed in state SHUTTING_DOWN"⟩
  else
    StateManager.verifyTargetLocked isLocalContext target sm

/-! ## Helper lemmas -/

/-- The events appended by concluding a live connection: the pool unregistration, the
db-connection recycle, the shutdown tasks and the metrics/log record. -/
def concludeEvents (conclusion reason : String) (txc : TxConnection) : List Event :=
  Event.unregister txc.TransactionID reason :: Event.recycleDb txc.TransactionID ::
    (txc.shutDownTasks.map (Event.runTask txc.TransactionID)
      ++ [Event.logRecord txc.TransactionID conclusion])

theorem foldl_emit_runTask (id : Int) (ts : List Nat) (w : World) :
    ts.foldl (fun acc t => emit (Event.runTask id t) acc) w
      = { w with events := w.events ++ ts.map (Event.runTask id) } := by
  induction ts generalizing w with
  | nil => simp
  | cons t ts ih =>
    rw [List.foldl_cons, ih]
    simp [emit, List.append_assoc]

/-- Characterization of TxConnection.conclude on a live connection: the db connection
is cleared, conclusion and end time are recorded, the ConnID leaves the registry and
the conclusion events are appended. -/
theorem conclude_spec (now : Nat) (c r : String) (txc : TxConnection) (w : World)
    (hlive : txc.hasDbConn = true) :
    TxConnection.conclude now c r txc w =
      ({ txc with hasDbConn := false, Conclusion := c, EndTime := now },
       { w with registry := w.registry.filter (fun p => p.1 != txc.TransactionID),
                events := w.events ++ concludeEvents c r txc }) := by
  simp only [TxConnection.conclude, hlive, Bool.true_eq_false, if_false]
  rw [foldl_emit_runTask]
  simp [ActivePool.Unregister, emit, TxConnection.logConclusion, concludeEvents,
        List.append_assoc]

/-- Concluding always leaves the db connection cleared. -/
theorem conclude_clears (now : Nat) (c r : String) (txc : TxConnection) (w : World) :
    ((TxConnection.conclude now c r txc w).1).hasDbConn = false := by
  by_cases h : txc.hasDbConn = true
  · rw [conclude_spec now c r txc w h]
  · simp only [Bool.not_eq_true] at h
    simp [TxConnection.conclude, h]

/-- Concluding a connection whose db connection is gone is a no-op. -/
theorem conclude_noop (now : Nat) (c r : String) (txc : TxConnection) (w : World)
    (h : txc.hasDbConn = false) :
    TxConnection.conclude now c r txc w = (txc, w) := by
  simp [TxConnection.conclude, h]

/-! ## Claim theorems -/

/-- C10: concluding a TxConnection is idempotent.  A first conclusion clears the db
connection; on a connection whose db connection is cleared, every further conclude,
Release or LocalConclude is a no-op; hence a second conclusion directly after any
first one changes nothing, so the pool unregistration, the registered shutdown tasks
and the metrics/log record of `concludeEvents` happen at most once per connection. -/
theorem conclude_idempotent :
    (∀ now c r txc w, ((TxConnection.conclude now c r txc w).1).hasDbConn = false) ∧
    (∀ now c r txc w, txc.hasDbConn = false →
        TxConnection.conclude now c r txc w = (txc, w)) ∧
    (∀ now r txc w, txc.hasDbConn = false →
        TxConnection.Release now r txc w = (txc, w)) ∧
    (∀ db now txc w, txc.hasDbConn = false →
        TxPool.LocalConclude db now txc w = (txc, w)) ∧
    (∀ now c r now₂ c₂ r₂ txc w,
        TxConnection.conclude now₂ c₂ r₂ (TxConnection.conclude now c r txc w).1
            (TxConnection.conclude now c r txc w).2
          = TxConnection.conclude now c r txc w) := by
  refine ⟨conclude_clears, conclude_noop, ?_, ?_, ?_⟩
  · intro now r txc w h
    exact conclude_noop now r r txc w h
  · intro db now txc w h
    simp [TxPool.LocalConclude, h]
  · intro now c r now₂ c₂ r₂ txc w
    rw [conclude_noop now₂ c₂ r₂ _ _ (conclude_clears now c r txc w)]

/-- C10 witness: on a concrete already-concluded connection, conclude, Release and
LocalConclude are all no-ops, and a conclusion of a live connection clears the db
connection. -/
theorem conclude_idempotent_witness :
    (TxConnection.conclude 9 "commit" "commit"
        ⟨5, false, 0, 0, [], "commit", "e", "i", false, false, some false, [0]⟩
        ⟨[], 5, 4, []⟩
      = (⟨5, false, 0, 0, [], "commit", "e", "i", false, false, some false, [0]⟩,
         ⟨[], 5, 4, []⟩)) ∧
    (TxPool.LocalConclude (fun _ => true) 9
        ⟨5, false, 0, 0, [], "commit", "e", "i", false, false, some false, [0]⟩
        ⟨[], 5, 4, []⟩
      = (⟨5, false, 0, 0, [], "commit", "e", "i", false, false, some false, [0]⟩,
         ⟨[], 5, 4, []⟩)) ∧
    ((TxConnection.conclude 9 "kill" "timeout"
        ⟨5, true, 0, 0, [], "", "e", "i", false, false, some false, [0]⟩
        ⟨[], 5, 4, []⟩).1).hasDbConn = false := by
  refine ⟨?_, ?_, ?_⟩
  · exact conclude_idempotent.2.1 9 "commit" "commit" _ _ rfl
  · exact conclude_idempotent.2.2.2.1 (fun _ => true) 9 _ _ rfl
  · exact conclude_idempotent.1 9 "kill" "timeout" _ _

/-- C5: on a live autocommit transaction, LocalCommit executes no statement and
returns the empty string, and localRollback executes no statement and returns no
error; in both cases the connection is concluded (db connection cleared, recycled
back to the pool) and unregistered, appending exactly the conclusion events, which
contain no statement execution. -/
theorem autocommit_skips_statements (db : String → Bool) (now : Nat)
    (conn : TxConnection) (w : World) (hauto : conn.Autocommit = true)
    (hlive : conn.hasDbConn = true) :
    ((TxPool.LocalCommit db now conn w).1 = ("", none)) ∧
    ((TxPool.LocalCommit db now conn w).2.2.events
        = w.events ++ concludeEvents TxCommit TxCommit conn) ∧
    (((TxPool.LocalCommit db now conn w).2.1).hasDbConn = false) ∧
    ((TxPool.localRollback db now conn w).1 = none) ∧
    ((TxPool.localRollback db now conn w).2.2.events
        = w.events ++ concludeEvents TxCommit TxCommit conn) ∧
    (((TxPool.localRollback db now conn w).2.1).hasDbConn = false) ∧
    (∀ i q, Event.execStmt i q ∉ concludeEvents TxCommit TxCommit conn) ∧
    (Event.recycleDb conn.TransactionID ∈ concludeEvents TxCommit TxCommit conn) ∧
    (Event.unregister conn.TransactionID TxCommit ∈ concludeEvents TxCommit TxCommit conn) := by
  have hrel := conclude_spec now TxCommit TxCommit conn w hlive
  refine ⟨?_, ?_, ?_, ?_, ?_, ?_, ?_, ?_, ?_⟩
  · simp [TxPool.LocalCommit, hauto, TxConnection.Release]
  · simp [TxPool.LocalCommit, hauto, TxConnection.Release, hrel]
  · simp [TxPool.LocalCommit, hauto, TxConnection.Release, hrel]
  · simp [TxPool.localRollback, hauto, TxConnection.Release]
  · simp [TxPool.localRollback, hauto, TxConnection.Release, hrel]
  · simp [TxPool.localRollback, hauto, TxConnection.Release, hrel]
  · intro i q
    simp [concludeEvents]
  · simp [concludeEvents]
  · simp [concludeEvents]

/-- C5 witness: a concrete live autocommit connection is concluded without executing
any statement by LocalCommit, which returns the empty string. -/
theorem autocommit_skips_statements_witness :
    (TxPool.LocalCommit (fun _ => true) 9
        ⟨5, true, 0, 0, [], "", "e", "i", true, false, some false, [0]⟩
        ⟨[(5, ⟨⟨5, true, 0, 0, [], "", "e", "i", true, false, some false, [0]⟩,
              false, 0⟩)], 5, 4, []⟩).1 = ("", none) ∧
    (TxPool.localRollback (fun _ => true) 9
        ⟨5, true, 0, 0, [], "", "e", "i", true, false, some false, [0]⟩
        ⟨[(5, ⟨⟨5, true, 0, 0, [], "", "e", "i", true, false, some false, [0]⟩,
              false, 0⟩)], 5, 4, []⟩).1 = none := by
  refine ⟨?_, ?_⟩
  · exact (autocommit_skips_statements (fun _ => true) 9 _ _ rfl rfl).1
  · exact (autocommit_skips_statements (fun _ => true) 9 _ _ rfl rfl).2.2.2.1

/-- C1: whenever the admission limiter rejects the caller pair, or the connection
pool is at capacity, or the context deadline has already expired, TxPool.Begin
returns ConnID 0, an empty begin-statement text and a RESOURCE_EXHAUSTED error, and
the active-pool registry is unchanged (no transaction is registered). -/
theorem begin_admission_rejected (env : BeginEnv) (iso : TransactionIsolation)
    (w : World)
    (h : env.limiterAllows = false ∨ env.ctxExpired = true ∨
         w.capacity ≤ w.registry.length) :
    ((TxPool.Begin env iso w).1.1 = 0) ∧
    ((TxPool.Begin env iso w).1.2.1 = "") ∧
    (∃ e, (TxPool.Begin env iso w).1.2.2 = some e ∧
          e.code = Code.RESOURCE_EXHAUSTED) ∧
    ((TxPool.Begin env iso w).2.registry = w.registry) := by
  by_cases hl : env.limiterAllows = false
  · simp [TxPool.Begin, hl]
  · simp only [Bool.not_eq_false] at hl
    by_cases hc : env.ctxExpired = true
    · simp [TxPool.Begin, ActivePool.NewConn, hl, hc]
    · simp only [Bool.not_eq_true] at hc
      have hcap : w.capacity ≤ w.registry.length := by
        rcases h with h | h | h
        · rw [hl] at h; cases h
        · rw [hc] at h; cases h
        · exact h
      simp [TxPool.Begin, ActivePool.NewConn, hl, hc, hcap]

/-- C1 witness: with the limiter rejecting, Begin on a concrete empty pool returns
ConnID 0, empty text, a RESOURCE_EXHAUSTED error and an unchanged registry. -/
theorem begin_admission_rejected_witness :
    ((TxPool.Begin ⟨false, false, "i", "e", 3, fun _ => true⟩
        TransactionIsolation.DEFAULT ⟨[], 0, 4, []⟩).1.1 = 0) ∧
    (∃ e, (TxPool.Begin ⟨false, false, "i", "e", 3, fun _ => true⟩
        TransactionIsolation.DEFAULT ⟨[], 0, 4, []⟩).1.2.2 = some e ∧
        e.code = Code.RESOURCE_EXHAUSTED) ∧
    ((TxPool.Begin ⟨false, false, "i", "e", 3, fun _ => true⟩
        TransactionIsolation.DEFAULT ⟨[], 0, 4, []⟩).2.registry = []) := by
  have h := begin_admission_rejected ⟨false, false, "i", "e", 3, fun _ => true⟩
    TransactionIsolation.DEFAULT ⟨[], 0, 4, []⟩ (Or.inl rfl)
  exact ⟨h.1, h.2.2.1, h.2.2.2⟩

/-- C3: on the admission-success path, Begin resolves the isolation level through
`txIsolations`: for every mapped level it executes the optional set-isolation-level
statement then the open-transaction statement on the new connection and returns their
concatenation (isolation text plus "; " when present, then the open statement) with
no error; for AUTOCOMMIT it executes no statement and returns the empty string; for
any isolation value outside the table and distinct from AUTOCOMMIT it fails with an
INTERNAL error, executing nothing. -/
theorem begin_isolation_table (env : BeginEnv) (iso : TransactionIsolation) (w : World)
    (h1 : env.limiterAllows = true) (h2 : env.ctxExpired = false)
    (h3 : w.registry.length < w.capacity) (hdb : ∀ q, env.db q = true) :
    (∀ qs, txIsolations iso = some qs →
      (TxPool.Begin env iso w).1.2.2 = none ∧
      (TxPool.Begin env iso w).1.2.1 =
        (if qs.setIsolationLevel = "" then "" else qs.setIsolationLevel ++ "; ")
          ++ qs.openTransaction ∧
      (TxPool.Begin env iso w).2.events = w.events ++
        (if qs.setIsolationLevel = "" then
           [Event.execStmt (w.lastID + 1) qs.openTransaction]
         else
           [Event.execStmt (w.lastID + 1)
              ("set transaction isolation level " ++ qs.setIsolationLevel),
            Event.execStmt (w.lastID + 1) qs.openTransaction])) ∧
    (iso = .AUTOCOMMIT →
      (TxPool.Begin env iso w).1.2.2 = none ∧
      (TxPool.Begin env iso w).1.2.1 = "" ∧
      (TxPool.Begin env iso w).2.events = w.events) ∧
    (txIsolations iso = none → iso ≠ .AUTOCOMMIT →
      (TxPool.Begin env iso w).1.1 = 0 ∧
      (TxPool.Begin env iso w).1.2.1 = "" ∧
      (∃ e, (TxPool.Begin env iso w).1.2.2 = some e ∧ e.code = Code.INTERNAL) ∧
      (TxPool.Begin env iso w).2.events = w.events) := by
  have hcap : ¬ w.capacity ≤ w.registry.length := Nat.not_le.mpr h3
  refine ⟨?_, ?_, ?_⟩
  · intro qs hqs
    by_cases hset : qs.setIsolationLevel = ""
    · simp [TxPool.Begin, ActivePool.NewConn, beginClosure, TxConnection.execWithRetry,
            emit, addShutdownTask, h1, h2, hcap, hqs, hdb, hset]
    · simp [TxPool.Begin, ActivePool.NewConn, beginClosure, TxConnection.execWithRetry,
            emit, addShutdownTask, h1, h2, hcap, hqs, hdb, hset, List.append_assoc]
  · intro hA
    subst hA
    simp [TxPool.Begin, ActivePool.NewConn, beginClosure, txIsolations,
          addShutdownTask, h1, h2, hcap]
  · intro hnone hne
    cases iso with
    | AUTOCOMMIT => exact absurd rfl hne
    | UNKNOWN_VALUE v =>
        simp [TxPool.Begin, ActivePool.NewConn, beginClosure, txIsolations,
              h1, h2, hcap]
    | _ => simp [txIsolations] at hnone

/-- C3 witness: on a concrete empty pool, Begin with REPEATABLE READ returns the
concatenated begin text and executes the two statements; with AUTOCOMMIT it executes
nothing; with an out-of-range value it fails with INTERNAL. -/
theorem begin_isolation_table_witness :
    ((TxPool.Begin ⟨true, false, "i", "e", 3, fun _ => true⟩
        TransactionIsolation.REPEATABLE_READ ⟨[], 0, 4, []⟩).1.2.1
      = "REPEATABLE READ; begin") ∧
    ((TxPool.Begin ⟨true, false, "i", "e", 3, fun _ => true⟩
        TransactionIsolation.AUTOCOMMIT ⟨[], 0, 4, []⟩).2.events = []) ∧
    (∃ e, (TxPool.Begin ⟨true, false, "i", "e", 3, fun _ => true⟩
        (TransactionIsolation.UNKNOWN_VALUE 42) ⟨[], 0, 4, []⟩).1.2.2 = some e ∧
        e.code = Code.INTERNAL) := by
  refine ⟨?_, ?_, ?_⟩
  · exact ((begin_isolation_table ⟨true, false, "i", "e", 3, fun _ => true⟩
      TransactionIsolation.REPEATABLE_READ ⟨[], 0, 4, []⟩ rfl rfl (by decide)
      (fun _ => rfl)).1 ⟨"REPEATABLE READ", "begin"⟩ rfl).2.1
  · exact ((begin_isolation_table ⟨true, false, "i", "e", 3, fun _ => true⟩
      TransactionIsolation.AUTOCOMMIT ⟨[], 0, 4, []⟩ rfl rfl (by decide)
      (fun _ => rfl)).2.1 rfl).2.2
  · exact ((begin_isolation_table ⟨true, false, "i", "e", 3, fun _ => true⟩
      (TransactionIsolation.UNKNOWN_VALUE 42) ⟨[], 0, 4, []⟩ rfl rfl (by decide)
      (fun _ => rfl)).2.2 rfl (by decide)).2.2.1

theorem lookup_eq_none_of_fresh (l : List (Int × PoolEntry)) (k : Int)
    (h : ∀ p ∈ l, p.1 ≠ k) : l.lookup k = none := by
  induction l with
  | nil => rfl
  | cons a l ih =>
    rw [show a = (a.1, a.2) from rfl, List.lookup_cons]
    have hne : (k == a.1) = false :=
      beq_eq_false_iff_ne.mpr (Ne.symm (h a (List.mem_cons_self a l)))
    rw [hne]
    exact ih (fun p hp => h p (List.mem_cons_of_mem a hp))

theorem lookup_append_fresh (l : List (Int × PoolEntry)) (k : Int) (e : PoolEntry)
    (h : ∀ p ∈ l, p.1 ≠ k) : (l ++ [(k, e)]).lookup k = some e := by
  induction l with
  | nil => simp [List.lookup]
  | cons a l ih =>
    rw [List.cons_append, show a = (a.1, a.2) from rfl, List.lookup_cons]
    have hne : (k == a.1) = false :=
      beq_eq_false_iff_ne.mpr (Ne.symm (h a (List.mem_cons_self a l)))
    rw [hne]
    exact ih (fun p hp => h p (List.mem_cons_of_mem a hp))

theorem map_if_eq_id (k : Int) (q : Int × PoolEntry → Int × PoolEntry)
    (l : List (Int × PoolEntry)) (h : ∀ p ∈ l, p.1 ≠ k) :
    l.map (fun p => if p.1 = k then q p else p) = l := by
  induction l with
  | nil => rfl
  | cons a l ih =>
    simp only [List.map_cons]
    rw [if_neg (h a (List.mem_cons_self a l)),
        ih (fun p hp => h p (List.mem_cons_of_mem a hp))]

theorem filter_ne_of_fresh (l : List (Int × PoolEntry)) (k : Int)
    (h : ∀ p ∈ l, p.1 ≠ k) : l.filter (fun p => p.1 != k) = l :=
  List.filter_eq_self.mpr (fun p hp => by simpa using h p hp)

/-- The shape of a successful Begin with a mapped isolation level: the new ConnID is
`lastID + 1`, the begin text is the table concatenation, and the new connection (not
autocommit, carrying the limiter-release shutdown task) is registered, not checked
out, with zero idle time; the previous registry is untouched.  The executed events
are abstracted. -/
theorem begin_success_shape (env : BeginEnv) (iso : TransactionIsolation) (w : World)
    (qs : Queries) (h1 : env.limiterAllows = true) (h2 : env.ctxExpired = false)
    (h3 : w.registry.length < w.capacity) (hdb : ∀ q, env.db q = true)
    (hqs : txIsolations iso = some qs)
    (hfresh : ∀ p ∈ w.registry, p.1 ≠ w.lastID + 1) :
    ∃ ev : List Event,
      TxPool.Begin env iso w =
        ((w.lastID + 1,
          (if qs.setIsolationLevel = "" then "" else qs.setIsolationLevel ++ "; ")
            ++ qs.openTransaction, none),
         { registry := w.registry ++
             [(w.lastID + 1,
               ⟨{ TransactionID := w.lastID + 1, hasDbConn := true,
                  StartTime := env.now, EndTime := 0, Queries := [],
                  Conclusion := "", EffectiveCaller := env.effectiveCaller,
                  ImmediateCaller := env.immediateCaller, Autocommit := false,
                  reserved := false, TxProps := some false, shutDownTasks := [0] },
                false, 0⟩)],
           lastID := w.lastID + 1, capacity := w.capacity,
           events := w.events ++ ev }) := by
  have hcap : ¬ w.capacity ≤ w.registry.length := Nat.not_le.mpr h3
  by_cases hset : qs.setIsolationLevel = ""
  · refine ⟨[Event.execStmt (w.lastID + 1) qs.openTransaction], ?_⟩
    simp [TxPool.Begin, ActivePool.NewConn, beginClosure, TxConnection.execWithRetry,
          emit, addShutdownTask, h1, h2, hcap, hqs, hdb, hset, List.map_append,
          map_if_eq_id _ _ _ hfresh]
  · refine ⟨[Event.execStmt (w.lastID + 1)
        ("set transaction isolation level " ++ qs.setIsolationLevel),
      Event.execStmt (w.lastID + 1) qs.openTransaction], ?_⟩
    simp [TxPool.Begin, ActivePool.NewConn, beginClosure, TxConnection.execWithRetry,
          emit, addShutdownTask, h1, h2, hcap, hqs, hdb, hset, List.map_append,
          map_if_eq_id _ _ _ hfresh, List.append_assoc]

/-- Committing a registered, checked-in, live, non-autocommit transaction: the result
is "commit", the entry leaves the registry (the earlier entries survive) and the
conclusion is logged. -/
theorem commit_on_registered (db : String → Bool) (now : Nat)
    (A : List (Int × PoolEntry)) (id : Int) (c : TxConnection) (w : World)
    (hw : w.registry = A ++ [(id, ⟨c, false, 0⟩)])
    (hfresh : ∀ p ∈ A, p.1 ≠ id)
    (hid : c.TransactionID = id) (hlive : c.hasDbConn = true)
    (hauto : c.Autocommit = false) (hdb : db "commit" = true) :
    ((TxPool.Commit db now id w).1 = .ok "commit") ∧
    ((TxPool.Commit db now id w).2.registry = A) ∧
    (Event.logRecord id TxCommit ∈ (TxPool.Commit db now id w).2.events) := by
  have hlook : w.registry.lookup id = some ⟨c, false, 0⟩ := by
    rw [hw]; exact lookup_append_fresh A id _ hfresh
  have hconc := conclude_spec now TxCommit TxCommit c
  have hC : TxPool.Commit db now id w =
      (.ok "commit",
       { registry := A, lastID := w.lastID, capacity := w.capacity,
         events := w.events ++
           (Event.execStmt id "commit" :: concludeEvents TxCommit TxCommit c) }) := by
    simp only [TxPool.Commit, TxPool.Get, ActivePool.Get, hlook, TxPool.LocalCommit,
      hauto, TxConnection.ExecOnDb, hlive, hdb, emit, TxConnection.Release,
      Bool.false_eq_true, if_false, ite_false, if_true, ite_true, hconc _ hlive]
    simp only [hw, List.map_append, map_if_eq_id _ _ _ hfresh, List.map_cons,
      List.map_nil, if_pos rfl, hid, List.filter_append,
      filter_ne_of_fresh A id hfresh, List.filter_cons, List.filter_nil]
    simp [List.append_assoc]
    exact fun a b hab => hfresh (a, b) hab
  refine ⟨?_, ?_, ?_⟩
  · rw [hC]
  · rw [hC]
  · rw [hC]
    simp [concludeEvents, hid]

/-- C2: a transaction successfully started by Begin (mapped, non-autocommit isolation)
is committed by TxPool.Commit on its ConnID: the result is "commit", the conclusion
"commit" is recorded in the log, the ConnID is removed from the active registry
(leaving the prior registry), and a later TxPool.Get on the same ConnID fails with an
ABORTED error. -/
theorem begin_commit_roundtrip (env : BeginEnv) (iso : TransactionIsolation)
    (w : World) (qs : Queries) (now : Nat)
    (h1 : env.limiterAllows = true) (h2 : env.ctxExpired = false)
    (h3 : w.registry.length < w.capacity) (hdb : ∀ q, env.db q = true)
    (hqs : txIsolations iso = some qs)
    (hfresh : ∀ p ∈ w.registry, p.1 ≠ w.lastID + 1) :
    ((TxPool.Begin env iso w).1.2.2 = none) ∧
    ((TxPool.Commit env.db now (TxPool.Begin env iso w).1.1
        (TxPool.Begin env iso w).2).1 = .ok "commit") ∧
    (Event.logRecord (TxPool.Begin env iso w).1.1 TxCommit ∈
        (TxPool.Commit env.db now (TxPool.Begin env iso w).1.1
          (TxPool.Begin env iso w).2).2.events) ∧
    ((TxPool.Commit env.db now (TxPool.Begin env iso w).1.1
        (TxPool.Begin env iso w).2).2.registry = w.registry) ∧
    (∀ reason, ∃ e,
        TxPool.Get (TxPool.Begin env iso w).1.1 reason
            (TxPool.Commit env.db now (TxPool.Begin env iso w).1.1
              (TxPool.Begin env iso w).2).2
          = .error e ∧ e.code = Code.ABORTED) := by
  obtain ⟨ev, hB⟩ := begin_success_shape env iso w qs h1 h2 h3 hdb hqs hfresh
  rw [hB]
  have hcommit := commit_on_registered env.db now w.registry (w.lastID + 1)
    { TransactionID := w.lastID + 1, hasDbConn := true, StartTime := env.now,
      EndTime := 0, Queries := [], Conclusion := "",
      EffectiveCaller := env.effectiveCaller, ImmediateCaller := env.immediateCaller,
      Autocommit := false, reserved := false, TxProps := some false,
      shutDownTasks := [0] }
    { registry := w.registry ++
        [(w.lastID + 1,
          ⟨{ TransactionID := w.lastID + 1, hasDbConn := true, StartTime := env.now,
             EndTime := 0, Queries := [], Conclusion := "",
             EffectiveCaller := env.effectiveCaller,
             ImmediateCaller := env.immediateCaller, Autocommit := false,
             reserved := false, TxProps := some false, shutDownTasks := [0] },
           false, 0⟩)],
      lastID := w.lastID + 1, capacity := w.capacity, events := w.events ++ ev }
    rfl hfresh rfl rfl rfl (hdb "commit")
  refine ⟨rfl, hcommit.1, hcommit.2.2, hcommit.2.1, ?_⟩
  intro reason
  have hnone : ((TxPool.Commit env.db now (w.lastID + 1)
      { registry := w.registry ++
          [(w.lastID + 1,
            ⟨{ TransactionID := w.lastID + 1, hasDbConn := true, StartTime := env.now,
               EndTime := 0, Queries := [], Conclusion := "",
               EffectiveCaller := env.effectiveCaller,
               ImmediateCaller := env.immediateCaller, Autocommit := false,
               reserved := false, TxProps := some false, shutDownTasks := [0] },
             false, 0⟩)],
        lastID := w.lastID + 1, capacity := w.capacity,
        events := w.events ++ ev }).2.registry).lookup (w.lastID + 1) = none := by
    rw [hcommit.2.1]
    exact lookup_eq_none_of_fresh w.registry _ hfresh
  refine ⟨⟨Code.ABORTED,
      "transaction " ++ toString (w.lastID + 1) ++ ": " ++ "not found"⟩, ?_, rfl⟩
  simp [TxPool.Get, ActivePool.Get, hnone]

/-- C2 witness: on a concrete empty pool, Begin followed by Commit on the returned
ConnID yields "commit", and a later Get on that ConnID fails with ABORTED. -/
theorem begin_commit_roundtrip_witness :
    ((TxPool.Commit (fun _ => true) 9
        (TxPool.Begin ⟨true, false, "i", "e", 3, fun _ => true⟩
          TransactionIsolation.DEFAULT ⟨[], 0, 4, []⟩).1.1
        (TxPool.Begin ⟨true, false, "i", "e", 3, fun _ => true⟩
          TransactionIsolation.DEFAULT ⟨[], 0, 4, []⟩).2).1 = .ok "commit") ∧
    (∃ e, TxPool.Get
        (TxPool.Begin ⟨true, false, "i", "e", 3, fun _ => true⟩
          TransactionIsolation.DEFAULT ⟨[], 0, 4, []⟩).1.1 "again"
        (TxPool.Commit (fun _ => true) 9
          (TxPool.Begin ⟨true, false, "i", "e", 3, fun _ => true⟩
            TransactionIsolation.DEFAULT ⟨[], 0, 4, []⟩).1.1
          (TxPool.Begin ⟨true, false, "i", "e", 3, fun _ => true⟩
            TransactionIsolation.DEFAULT ⟨[], 0, 4, []⟩).2).2
      = .error e ∧ e.code = Code.ABORTED) := by
  have h := begin_commit_roundtrip ⟨true, false, "i", "e", 3, fun _ => true⟩
    TransactionIsolation.DEFAULT ⟨[], 0, 4, []⟩ ⟨"", "begin"⟩ 9 rfl rfl
    (by decide) (fun _ => rfl) rfl (by intro p hp; simp at hp)
  exact ⟨h.2.1, h.2.2.2.2 "again"⟩

/-- The transaction-killer fold over a list of live connections: one kill-counter
increment, one db-connection close and one conclusion per connection, and exactly
the ids of those connections leave the registry. -/
theorem killer_fold (now : Nat) (cs : List TxConnection) (w : World)
    (hlive : ∀ c ∈ cs, c.hasDbConn = true) :
    (cs.foldl (fun acc conn =>
        let acc := emit Event.killCounterAdd acc
        let acc := TxConnection.CloseConn conn acc
        (TxConnection.conclude now TxKill "exceeded timeout" conn acc).2) w)
      = { w with
          registry := w.registry.filter
            (fun p => !(cs.map TxConnection.TransactionID).contains p.1),
          events := w.events ++ cs.flatMap (fun c =>
            Event.killCounterAdd :: Event.closeDb c.TransactionID ::
              concludeEvents TxKill "exceeded timeout" c) } := by
  induction cs generalizing w with
  | nil => simp
  | cons c cs ih =>
    rw [List.foldl_cons]
    have hc : c.hasDbConn = true := hlive c (List.mem_cons_self c cs)
    have hstep : (let acc := emit Event.killCounterAdd w
        let acc := TxConnection.CloseConn c acc
        (TxConnection.conclude now TxKill "exceeded timeout" c acc).2)
        = { w with
            registry := w.registry.filter (fun p => p.1 != c.TransactionID),
            events := w.events ++
              (Event.killCounterAdd :: Event.closeDb c.TransactionID ::
                concludeEvents TxKill "exceeded timeout" c) } := by
      simp [emit, TxConnection.CloseConn, hc, conclude_spec now TxKill _ c _ hc,
        List.append_assoc]
    rw [hstep, ih _ (fun x hx => hlive x (List.mem_cons_of_mem c hx))]
    simp only [World.mk.injEq]
    refine ⟨?_, trivial, trivial, ?_⟩
    · simp only [List.filter_filter, List.map_cons, List.contains_cons]
      refine List.filter_congr ?_
      intro p _
      cases hb : (p.1 == c.TransactionID) <;>
        simp [hb, bne, Bool.not_or]
    · simp [List.flatMap_cons, List.append_assoc]

/-- C4: on a reaper tick over a registry with unique ConnIDs whose entries carry
their own id and a live db connection, the transaction killer removes exactly the
entries idle longer than the timeout and not checked out; per killed connection it
appends one kill-counter increment, the db-connection close and the conclusion
events with conclusion "kill"; every checked-out entry survives the tick unchanged,
and every killed connection has its "kill" conclusion logged. -/
theorem transaction_killer_spec (now timeout : Nat) (w : World)
    (hnodup : (w.registry.map Prod.fst).Nodup)
    (hkey : ∀ p ∈ w.registry, p.2.conn.TransactionID = p.1)
    (hlive : ∀ p ∈ w.registry, p.2.conn.hasDbConn = true) :
    ((TxPool.transactionKiller now timeout w).registry
        = w.registry.filter (fun p => !outdatedB timeout p)) ∧
    ((TxPool.transactionKiller now timeout w).events
        = w.events ++ (ActivePool.GetOutdated timeout w).flatMap (fun c =>
            Event.killCounterAdd :: Event.closeDb c.TransactionID ::
              concludeEvents TxKill "exceeded timeout" c)) ∧
    (∀ p ∈ w.registry, p.2.inUse = true →
        p ∈ (TxPool.transactionKiller now timeout w).registry) ∧
    (∀ c ∈ ActivePool.GetOutdated timeout w,
        Event.logRecord c.TransactionID TxKill
          ∈ (TxPool.transactionKiller now timeout w).events) := by
  have hliveOut : ∀ c ∈ ActivePool.GetOutdated timeout w, c.hasDbConn = true := by
    intro c hc
    obtain ⟨p, hp, rfl⟩ := List.mem_map.mp hc
    exact hlive p (List.mem_of_mem_filter hp)
  have hfold := killer_fold now (ActivePool.GetOutdated timeout w) w hliveOut
  have hreg : (TxPool.transactionKiller now timeout w).registry
      = w.registry.filter (fun p => !outdatedB timeout p) := by
    rw [TxPool.transactionKiller, hfold]
    refine List.filter_congr ?_
    intro p hp
    have hcp : ((ActivePool.GetOutdated timeout w).map
        TxConnection.TransactionID).contains p.1 = outdatedB timeout p := by
      cases hout : outdatedB timeout p with
      | true =>
        have hmem : p.1 ∈ (ActivePool.GetOutdated timeout w).map
            TxConnection.TransactionID := by
          rw [ActivePool.GetOutdated, List.map_map]
          exact List.mem_map.mpr ⟨p, List.mem_filter.mpr ⟨hp, hout⟩, hkey p hp⟩
        simpa using hmem
      | false =>
        rw [Bool.eq_false_iff]
        intro hcontains
        have hmem : p.1 ∈ (ActivePool.GetOutdated timeout w).map
            TxConnection.TransactionID := by
          simpa using hcontains
        rw [ActivePool.GetOutdated, List.map_map] at hmem
        obtain ⟨q, hq, hq1⟩ := List.mem_map.mp hmem
        have hqmem := List.mem_of_mem_filter hq
        have hq1' : q.1 = p.1 := by rw [← hkey q hqmem]; exact hq1
        have hqp : q = p := List.inj_on_of_nodup_map hnodup hqmem hp hq1'
        rw [hqp] at hq
        have hcontra := (List.mem_filter.mp hq).2
        rw [hout] at hcontra
        cases hcontra
    rw [hcp]
  refine ⟨hreg, ?_, ?_, ?_⟩
  · rw [TxPool.transactionKiller, hfold]
  · intro p hp hinuse
    rw [hreg]
    refine List.mem_filter.mpr ⟨hp, ?_⟩
    simp [outdatedB, hinuse]
  · intro c hc
    rw [TxPool.transactionKiller, hfold]
    refine List.mem_append.mpr (Or.inr ?_)
    refine List.mem_flatMap.mpr ⟨c, hc, ?_⟩
    simp [concludeEvents]

/-- C4 witness: on a concrete registry with one outdated idle entry and one
checked-out entry, the reaper tick removes exactly the outdated entry, logs its
"kill" conclusion, and the checked-out entry survives. -/
theorem transaction_killer_spec_witness :
    ((TxPool.transactionKiller 9 10
        ⟨[(5, ⟨⟨5, true, 0, 0, [], "", "e", "i", false, false, some false, []⟩,
               false, 100⟩),
          (6, ⟨⟨6, true, 0, 0, [], "", "e", "i", false, false, some false, []⟩,
               true, 100⟩)], 6, 4, []⟩).registry
      = [(6, ⟨⟨6, true, 0, 0, [], "", "e", "i", false, false, some false, []⟩,
              true, 100⟩)]) ∧
    ((6, (⟨⟨6, true, 0, 0, [], "", "e", "i", false, false, some false, []⟩,
          true, 100⟩ : PoolEntry)) ∈
      (TxPool.transactionKiller 9 10
        ⟨[(5, ⟨⟨5, true, 0, 0, [], "", "e", "i", false, false, some false, []⟩,
               false, 100⟩),
          (6, ⟨⟨6, true, 0, 0, [], "", "e", "i", false, false, some false, []⟩,
               true, 100⟩)], 6, 4, []⟩).registry) ∧
    (Event.logRecord 5 TxKill ∈
      (TxPool.transactionKiller 9 10
        ⟨[(5, ⟨⟨5, true, 0, 0, [], "", "e", "i", false, false, some false, []⟩,
               false, 100⟩),
          (6, ⟨⟨6, true, 0, 0, [], "", "e", "i", false, false, some false, []⟩,
               true, 100⟩)], 6, 4, []⟩).events) := by
  have h := transaction_killer_spec 9 10
    ⟨[(5, ⟨⟨5, true, 0, 0, [], "", "e", "i", false, false, some false, []⟩,
           false, 100⟩),
      (6, ⟨⟨6, true, 0, 0, [], "", "e", "i", false, false, some false, []⟩,
           true, 100⟩)], 6, 4, []⟩
    (by decide) (by decide) (by decide)
  refine ⟨?_, ?_, ?_⟩
  · rw [h.1]; decide
  · exact h.2.2.1 _ (by decide) rfl
  · exact h.2.2.2 ⟨5, true, 0, 0, [], "", "e", "i", false, false, some false, []⟩
      (by decide)

/-- C6: SetServingType returns changed = false, performing no subcomponent action,
exactly when tabletType, wantState and triggeringError equal the currently-applied
configuration; whenever any of the three differs it performs the (nonempty) ordered
subcomponent actions of the transition and applies the new configuration, returning
changed = true. -/
theorem set_serving_type_no_op_iff (t : TabletType) (ts : Nat) (ws : ServingState)
    (r : Option String) (sm : StateManager) :
    ((StateManager.SetServingType t ts ws r sm).1.1 = false ↔
      (sm.target.tabletType = t ∧ sm.wantState = ws ∧ sm.lastError = r)) ∧
    ((StateManager.SetServingType t ts ws r sm).1.1 = false →
      (StateManager.SetServingType t ts ws r sm).1.2 = []) ∧
    ((StateManager.SetServingType t ts ws r sm).1.1 = true →
      (StateManager.SetServingType t ts ws r sm).1.2 = transitionActions t ws ∧
      (StateManager.SetServingType t ts ws r sm).1.2 ≠ [] ∧
      (StateManager.SetServingType t ts ws r sm).2.target.tabletType = t ∧
      (StateManager.SetServingType t ts ws r sm).2.wantState = ws ∧
      (StateManager.SetServingType t ts ws r sm).2.lastError = r) := by
  have hne : transitionActions t ws ≠ [] := by
    cases t <;> cases ws <;>
      simp [transitionActions, servePrimaryActions, serveNonPrimaryActions,
        unservePrimaryActions, unserveNonPrimaryActions, closeAllActions]
  by_cases h : sm.target.tabletType = t ∧ sm.wantState = ws ∧ sm.lastError = r
  · simp [StateManager.SetServingType, h]
  · simp [StateManager.SetServingType, h, hne]

/-- C6 witness: a concrete repeated SetServingType call with identical arguments is a
no-op performing no action, while a differing call performs a nonempty transition. -/
theorem set_serving_type_no_op_iff_witness :
    ((StateManager.SetServingType TabletType.REPLICA 5 ServingState.StateServing none
        ⟨⟨"ks", "0", .REPLICA⟩, .StateServing, .StateServing, none, true, false,
         [], 0⟩).1.1 = false) ∧
    ((StateManager.SetServingType TabletType.REPLICA 5 ServingState.StateServing none
        ⟨⟨"ks", "0", .REPLICA⟩, .StateServing, .StateServing, none, true, false,
         [], 0⟩).1.2 = []) ∧
    ((StateManager.SetServingType TabletType.MASTER 5 ServingState.StateServing none
        ⟨⟨"ks", "0", .REPLICA⟩, .StateServing, .StateServing, none, true, false,
         [], 0⟩).1.2 ≠ []) := by
  have h1 := (set_serving_type_no_op_iff TabletType.REPLICA 5
    ServingState.StateServing none
    ⟨⟨"ks", "0", .REPLICA⟩, .StateServing, .StateServing, none, true, false,
     [], 0⟩).1.mpr ⟨rfl, rfl, rfl⟩
  have h2 := (set_serving_type_no_op_iff TabletType.REPLICA 5
    ServingState.StateServing none
    ⟨⟨"ks", "0", .REPLICA⟩, .StateServing, .StateServing, none, true, false,
     [], 0⟩).2.1 h1
  have h3 := ((set_serving_type_no_op_iff TabletType.MASTER 5
    ServingState.StateServing none
    ⟨⟨"ks", "0", .REPLICA⟩, .StateServing, .StateServing, none, true, false,
     [], 0⟩).2.2 rfl).2.1
  exact ⟨h1, h2, h3⟩

/-- C7 counterexample: with achieved state SERVING, desired state SERVING and a
matching target but replication unhealthy, StartRequest fails — refuting the claim
that SERVING plus SERVING plus a matching target alone guarantee success. -/
theorem start_request_claim_counterexample :
    ((⟨⟨"ks", "0", .MASTER⟩, .StateServing, .StateServing, none, false, false,
        [], 0⟩ : StateManager).state = ServingState.StateServing) ∧
    ((⟨⟨"ks", "0", .MASTER⟩, .StateServing, .StateServing, none, false, false,
        [], 0⟩ : StateManager).wantState = ServingState.StateServing) ∧
    (StateManager.StartRequest false (some ⟨"ks", "0", .MASTER⟩) false
        ⟨⟨"ks", "0", .MASTER⟩, .StateServing, .StateServing, none, false, false,
         [], 0⟩ ≠ none) := by
  decide

/-- C7 (amended): StartRequest fails with an operation-not-allowed error whenever the
achieved state is not SERVING, or replication is unhealthy, or the desired state is
not SERVING without the allowExtraTypes escape; and it succeeds whenever the achieved
state is SERVING, replication is healthy, the desired state is SERVING (or
allowExtraTypes is set) and the request target matches the current target. -/
theorem start_request_gating (isLocal : Bool) (t : Target) (allow : Bool)
    (sm : StateManager) :
    ((sm.state ≠ ServingState.StateServing ∨ sm.replHealthy = false ∨
        (sm.wantState ≠ ServingState.StateServing ∧ allow = false)) →
      ∃ e, StateManager.StartRequest isLocal (some t) allow sm = some e ∧
        e.code = Code.FAILED_PRECONDITION) ∧
    ((sm.state = ServingState.StateServing ∧ sm.replHealthy = true ∧
        (sm.wantState = ServingState.StateServing ∨ allow = true) ∧
        t = sm.target) →
      StateManager.StartRequest isLocal (some t) allow sm = none) := by
  constructor
  · intro h
    unfold StateManager.StartRequest
    by_cases hc1 : sm.state ≠ ServingState.StateServing ∨ sm.replHealthy = false
    · rw [if_pos hc1]
      exact ⟨_, rfl, rfl⟩
    · rw [if_neg hc1]
      have h3 : sm.wantState ≠ ServingState.StateServing ∧ allow = false := by
        rcases h with h | h | h
        · exact absurd (Or.inl h) hc1
        · exact absurd (Or.inr h) hc1
        · exact h
      rw [if_pos h3]
      exact ⟨_, rfl, rfl⟩
  · rintro ⟨hstate, hrepl, hwant, ht⟩
    unfold StateManager.StartRequest
    have hc1 : ¬(sm.state ≠ ServingState.StateServing ∨ sm.replHealthy = false) := by
      simp [hstate, hrepl]
    rw [if_neg hc1]
    have hc2 : ¬(sm.wantState ≠ ServingState.StateServing ∧ allow = false) := by
      rcases hwant with h | h
      · simp [h]
      · simp [h]
    rw [if_neg hc2]
    simp [StateManager.verifyTargetLocked, ht]

/-- C7 witness for the amended claim: a concrete unhealthy-replication state fails
although SERVING is both achieved and desired, and the same state with healthy
replication and a matching target succeeds. -/
theorem start_request_gating_witness :
    (∃ e, StateManager.StartRequest false (some ⟨"ks", "0", .MASTER⟩) false
        ⟨⟨"ks", "0", .MASTER⟩, .StateServing, .StateServing, none, false, false,
         [], 0⟩ = some e ∧ e.code = Code.FAILED_PRECONDITION) ∧
    (StateManager.StartRequest false (some ⟨"ks", "0", .MASTER⟩) false
        ⟨⟨"ks", "0", .MASTER⟩, .StateServing, .StateServing, none, true, false,
         [], 0⟩ = none) := by
  refine ⟨?_, ?_⟩
  · exact (start_request_gating false ⟨"ks", "0", .MASTER⟩ false
      ⟨⟨"ks", "0", .MASTER⟩, .StateServing, .StateServing, none, false, false,
       [], 0⟩).1 (Or.inr (Or.inl rfl))
  · exact (start_request_gating false ⟨"ks", "0", .MASTER⟩ false
      ⟨⟨"ks", "0", .MASTER⟩, .StateServing, .StateServing, none, true, false,
       [], 0⟩).2 ⟨rfl, rfl, Or.inl rfl, rfl⟩

/-- C8: with at least one subscriber, Broadcast sets the snapshot's serving field to
the conjunction of the internal serving flag and lag ≤ unhealthyThreshold; on a probe
error it sets the health-error text, zeroes the reported lag and clears serving; and
every subscriber slot receives a copy of the new snapshot by a non-blocking send that
leaves an already-full slot unchanged. -/
theorem broadcast_spec (replStatus : Except String Nat) (blp : Int × Int) (qps : Int)
    (hs : HealthStreamer) (hclients : hs.clients ≠ []) :
    (∀ lag, replStatus = .ok lag →
       (HealthStreamer.Broadcast replStatus blp qps hs).state.serving
         = (hs.serving && decide (lag ≤ hs.unhealthyThreshold)) ∧
       (HealthStreamer.Broadcast replStatus blp qps hs).state.realtimeStats.healthError
         = "") ∧
    (∀ e, replStatus = .error e →
       (HealthStreamer.Broadcast replStatus blp qps hs).state.realtimeStats.healthError
         = e ∧
       (HealthStreamer.Broadcast replStatus blp
          qps hs).state.realtimeStats.secondsBehindMaster = 0 ∧
       (HealthStreamer.Broadcast replStatus blp qps hs).state.serving = false) ∧
    ((HealthStreamer.Broadcast replStatus blp qps hs).clients
      = hs.clients.map (fun slot =>
          match slot with
          | none => some (HealthStreamer.Broadcast replStatus blp qps hs).state
          | some m => some m)) := by
  have hne : hs.clients.isEmpty = false := by
    cases hcl : hs.clients with
    | nil => exact absurd hcl hclients
    | cons a l => rfl
  refine ⟨?_, ?_, ?_⟩
  · rintro lag rfl
    simp [HealthStreamer.Broadcast, hne]
  · rintro e rfl
    simp [HealthStreamer.Broadcast, hne]
  · cases replStatus <;>
      · simp only [HealthStreamer.Broadcast, hne, Bool.false_eq_true, if_false]
        rfl

/-- C8 witness: on a concrete streamer with one free-slot subscriber and one full
slot, a healthy broadcast sets serving and fills only the free slot; an error
broadcast clears serving, zeroes lag and records the error text. -/
theorem broadcast_spec_witness :
    ((HealthStreamer.Broadcast (.ok 1500000000) (2, 3) 7
        ⟨2000000000, true,
         ⟨⟨"ks", "0", .MASTER⟩, false, 0, ⟨"boot", 9, 0, 0, 0⟩⟩,
         [none, some ⟨⟨"ks", "0", .MASTER⟩, false, 0, ⟨"old", 1, 0, 0, 0⟩⟩]⟩).state.serving
      = true) ∧
    ((HealthStreamer.Broadcast (.error "repl broken") (2, 3) 7
        ⟨2000000000, true,
         ⟨⟨"ks", "0", .MASTER⟩, false, 0, ⟨"boot", 9, 0, 0, 0⟩⟩,
         [none, some ⟨⟨"ks", "0", .MASTER⟩, false, 0, ⟨"old", 1, 0, 0, 0⟩⟩]⟩).state.realtimeStats.healthError
      = "repl broken") ∧
    ((HealthStreamer.Broadcast (.ok 1500000000) (2, 3) 7
        ⟨2000000000, true,
         ⟨⟨"ks", "0", .MASTER⟩, false, 0, ⟨"boot", 9, 0, 0, 0⟩⟩,
         [none, some ⟨⟨"ks", "0", .MASTER⟩, false, 0, ⟨"old", 1, 0, 0, 0⟩⟩]⟩).clients.get? 1
      = some (some ⟨⟨"ks", "0", .MASTER⟩, false, 0, ⟨"old", 1, 0, 0, 0⟩⟩)) := by
  refine ⟨?_, ?_, ?_⟩
  · have h := ((broadcast_spec (.ok 1500000000) (2, 3) 7
      ⟨2000000000, true,
       ⟨⟨"ks", "0", .MASTER⟩, false, 0, ⟨"boot", 9, 0, 0, 0⟩⟩,
       [none, some ⟨⟨"ks", "0", .MASTER⟩, false, 0, ⟨"old", 1, 0, 0, 0⟩⟩]⟩
      (by simp)).1 1500000000 rfl).1
    rw [h]
    decide
  · exact ((broadcast_spec (.error "repl broken") (2, 3) 7
      ⟨2000000000, true,
       ⟨⟨"ks", "0", .MASTER⟩, false, 0, ⟨"boot", 9, 0, 0, 0⟩⟩,
       [none, some ⟨⟨"ks", "0", .MASTER⟩, false, 0, ⟨"old", 1, 0, 0, 0⟩⟩]⟩
      (by simp)).2.1 "repl broken" rfl).1
  · have h := (broadcast_spec (.ok 1500000000) (2, 3) 7
      ⟨2000000000, true,
       ⟨⟨"ks", "0", .MASTER⟩, false, 0, ⟨"boot", 9, 0, 0, 0⟩⟩,
       [none, some ⟨⟨"ks", "0", .MASTER⟩, false, 0, ⟨"old", 1, 0, 0, 0⟩⟩]⟩
      (by simp)).2.2
    rw [h]
    rfl

/-- Candidate resolution for the PRIMARY special case as the claim words it: the
candidate alias is taken directly from the shard metadata's primary alias (the cell
list is not consulted), then fetched and kept when its tablet type is among the
requested roles. -/
def primaryCandidates (ts : TopoServer) (keyspace shard : String)
    (roles : List TabletType) : List TabletInfo :=
  match ts.getShard keyspace shard with
  | .error _ => []
  | .ok si =>
    match ts.getTabletMap [si.masterAlias] with
    | .error _ => []
    | .ok m =>
      match m si.masterAlias with
      | none => []
      | some ti => if roles.contains ti.tablet.tabletType then [ti] else []

/-- Cell resolution as the claim words it: each configured cell is expanded through
the cell-alias lookup; a name that is not an alias stands for itself. -/
def resolveCells (ts : TopoServer) (cells : List String) : List String :=
  cells.flatMap (fun cell =>
    match ts.getCellsAlias cell with
    | .error _ => [cell]
    | .ok ca => ca.cells)

/-- Candidate resolution for the general case as the claim words it: the candidates
are the tablets recorded in the resolved cells' shard-replication graphs for the
keyspace and shard whose tablet type is among the requested roles. -/
def cellCandidates (ts : TopoServer) (cells : List String) (keyspace shard : String)
    (roles : List TabletType) : List TabletInfo :=
  let aliases := (resolveCells ts cells).flatMap (fun cell =>
    match ts.getShardReplication cell keyspace shard with
    | .error _ => []
    | .ok nodes => nodes)
  if aliases.isEmpty then []
  else
    match ts.getTabletMap aliases with
    | .error _ => []
    | .ok m =>
      aliases.filterMap (fun a =>
        match m a with
        | none => none
        | some ti => if roles.contains ti.tablet.tabletType then some ti else none)

/-- C9: when the requested role set is exactly the primary, candidate resolution goes
directly through shard metadata and ignores the configured cell list entirely; for
any other requested role set it equals the cell-expansion resolution: expand each
configured cell through the cell-alias lookup and collect the tablets of the resolved
cells matching keyspace, shard and one of the requested roles. -/
theorem get_matching_tablets_spec (ts : TopoServer) (tp : TabletPicker) :
    (tp.tabletTypes = [TabletType.MASTER] →
      (∀ cells₂, TabletPicker.getMatchingTablets ts
          { tp with cells := cells₂ } = TabletPicker.getMatchingTablets ts tp) ∧
      TabletPicker.getMatchingTablets ts tp
        = primaryCandidates ts tp.keyspace tp.shard tp.tabletTypes) ∧
    (tp.tabletTypes ≠ [TabletType.MASTER] →
      TabletPicker.getMatchingTablets ts tp
        = cellCandidates ts tp.cells tp.keyspace tp.shard tp.tabletTypes) := by
  constructor
  · intro h
    have hmain : ∀ cells₀, TabletPicker.getMatchingTablets ts { tp with cells := cells₀ }
        = primaryCandidates ts tp.keyspace tp.shard tp.tabletTypes := by
      intro cells₀
      cases hsi : ts.getShard tp.keyspace tp.shard with
      | error e =>
        simp [TabletPicker.getMatchingTablets, primaryCandidates, h, hsi]
      | ok si =>
        cases hm : ts.getTabletMap [si.masterAlias] with
        | error e =>
          simp [TabletPicker.getMatchingTablets, primaryCandidates, h, hsi, hm]
        | ok m =>
          cases hma : m si.masterAlias with
          | none =>
            simp [TabletPicker.getMatchingTablets, primaryCandidates, h, hsi, hm, hma]
          | some ti =>
            simp [TabletPicker.getMatchingTablets, primaryCandidates, h, hsi, hm, hma,
              List.filterMap_cons]
            by_cases ht : ti.tablet.tabletType = TabletType.MASTER <;> simp [ht]
    exact ⟨fun cells₂ => (hmain cells₂).trans (hmain tp.cells).symm, by
      have := hmain tp.cells
      simpa using this⟩
  · intro h
    unfold TabletPicker.getMatchingTablets cellCandidates resolveCells
    rw [if_neg h]

/-- A concrete topology used to exercise the tablet picker: one shard whose primary
is cellA/1, a cell alias "ali" expanding to cellA and cellB, and two tablets in
cellA's replication graph. -/
def tsSample : TopoServer :=
  { getShard := fun _ _ => .ok ⟨⟨"cellA", 1⟩⟩,
    getCellsAlias := fun c =>
      if c = "ali" then .ok ⟨["cellA", "cellB"]⟩ else .error "not an alias",
    getShardReplication := fun c _ _ =>
      if c = "cellA" then .ok [⟨"cellA", 1⟩, ⟨"cellA", 2⟩] else .ok [],
    getTabletMap := fun _ => .ok (fun a =>
      if a = ⟨"cellA", 1⟩ then some ⟨⟨⟨"cellA", 1⟩, "ks", "0", .MASTER⟩⟩
      else if a = ⟨"cellA", 2⟩ then some ⟨⟨⟨"cellA", 2⟩, "ks", "0", .REPLICA⟩⟩
      else none) }

/-- C9 witness: on the concrete topology, a MASTER-only picker resolves identically
under two different cell lists and through the shard-metadata path, while a REPLICA
picker resolves through the cell-expansion path. -/
theorem get_matching_tablets_spec_witness :
    (TabletPicker.getMatchingTablets tsSample ⟨["y"], "ks", "0", [TabletType.MASTER]⟩
      = TabletPicker.getMatchingTablets tsSample
          ⟨["x"], "ks", "0", [TabletType.MASTER]⟩) ∧
    (TabletPicker.getMatchingTablets tsSample ⟨["x"], "ks", "0", [TabletType.MASTER]⟩
      = primaryCandidates tsSample "ks" "0" [TabletType.MASTER]) ∧
    (TabletPicker.getMatchingTablets tsSample
        ⟨["ali"], "ks", "0", [TabletType.REPLICA]⟩
      = cellCandidates tsSample ["ali"] "ks" "0" [TabletType.REPLICA]) := by
  refine ⟨?_, ?_, ?_⟩
  · exact ((get_matching_tablets_spec tsSample
      ⟨["x"], "ks", "0", [TabletType.MASTER]⟩).1 rfl).1 ["y"]
  · exact ((get_matching_tablets_spec tsSample
      ⟨["x"], "ks", "0", [TabletType.MASTER]⟩).1 rfl).2
  · exact (get_matching_tablets_spec tsSample
      ⟨["ali"], "ks", "0", [TabletType.REPLICA]⟩).2 (by decide)

end Vitess
